import Mathlib

/-!
Verification of the session/token lifecycle and multi-tenant authorization
layer of the survey-management application.

The embedding mirrors the TypeScript sources:
* `src/shared/utils/token-refresh.ts` — the token codec (`parseJWT`,
  `shouldRefreshToken`, `getTokenExpiryTime`, `isTokenExpired`);
* `src/server/middleware/auth.ts` — the middleware chain (`authMiddleware`,
  `optionalAuthMiddleware`, `djangoClinicContextMiddleware`);
* `src/client/stores/auth/actions.ts` — the session actions
  (`login`, `logout`, `refreshToken`);
* `src/client/stores/auth/index.ts` — the auto-refresh scheduler effect;
* `src/client/stores/auth/types.ts` — the role→permission table.

JavaScript exceptions are modelled with `Option`/`Except`; `Date.now()` and
network responses are explicit parameters; JS string/number truthiness is
modelled explicitly where the code relies on it.
-/

/-! ### Token codec: `src/shared/utils/token-refresh.ts` -/

/-- The claim object produced by `parseJWT`: `{ exp?: number; iat?: number }`.
JSON numbers that occur in JWT `exp`/`iat` claims are integers (epoch
seconds), modelled as `Int`. -/
structure JWTClaims where
  exp : Option Int
  iat : Option Int
deriving DecidableEq, Repr

/-- ASCII whitespace stripped by the forgiving-base64 decode of JS `atob`. -/
def isB64Whitespace (c : Char) : Bool :=
  c == ' ' || c == '\t' || c == '\n' || c == '\r' || c == '\x0c'

/-- Value of a base64 alphabet character, `none` for a character outside the
alphabet (which makes `atob` throw). -/
def base64Val (c : Char) : Option Nat :=
  if 'A' ≤ c ∧ c ≤ 'Z' then some (c.toNat - 'A'.toNat)
  else if 'a' ≤ c ∧ c ≤ 'z' then some (c.toNat - 'a'.toNat + 26)
  else if '0' ≤ c ∧ c ≤ '9' then some (c.toNat - '0'.toNat + 52)
  else if c = '+' then some 62
  else if c = '/' then some 63
  else none

/-- Strip up to two trailing `=` padding characters when the length is a
multiple of four (step 2 of the forgiving-base64 decode). -/
def stripB64Pad (cs : List Char) : List Char :=
  if cs.length % 4 = 0 then
    let r := cs.reverse
    if r.take 2 = ['=', '='] then (r.drop 2).reverse
    else if r.take 1 = ['='] then (r.drop 1).reverse
    else cs
  else cs

/-- Convert a list of 6-bit sextet values into 8-bit bytes; a trailing group
of a single sextet is a failure, trailing bits of groups of two or three
sextets are discarded (forgiving-base64). -/
def sextetsToBytes : List Nat → Option (List Nat)
  | [] => some []
  | [_] => none
  | [a, b] => some [(a * 4 + b / 16) % 256]
  | [a, b, c] => some [(a * 4 + b / 16) % 256, (b % 16 * 16 + c / 4) % 256]
  | a :: b :: c :: d :: rest =>
    match sextetsToBytes rest with
    | none => none
    | some tail =>
      some ((a * 4 + b / 16) % 256 :: (b % 16 * 16 + c / 4) % 256 ::
            (c % 4 * 64 + d) % 256 :: tail)

/-- JS `atob`: forgiving-base64 decode of a string into a byte list, `none`
when `atob` would throw (`InvalidCharacterError`). -/
def atob (s : String) : Option (List Nat) :=
  let cs := stripB64Pad (s.data.filter (fun c => !isB64Whitespace c))
  if cs.length % 4 = 1 then none
  else
    match cs.mapM base64Val with
    | none => none
    | some vals => sextetsToBytes vals

/-- Decode a UTF-8 byte sequence into characters, `none` on a malformed
sequence. This models the
`decodeURIComponent(bytes.map(b => '%' + hex(b)).join(''))` round trip in
`parseJWT`, which percent-encodes every byte and lets `decodeURIComponent`
perform strict UTF-8 decoding (throwing `URIError` on malformed input).
The first argument is fuel, instantiated with the length of the list. -/
def utf8DecodeAux : Nat → List Nat → Option (List Char)
  | _, [] => some []
  | 0, _ :: _ => none
  | fuel + 1, b :: rest =>
    if b < 0x80 then
      match utf8DecodeAux fuel rest with
      | none => none
      | some cs => some (Char.ofNat b :: cs)
    else if 0xC2 ≤ b ∧ b ≤ 0xDF then
      match rest with
      | b2 :: rest2 =>
        if 0x80 ≤ b2 ∧ b2 ≤ 0xBF then
          match utf8DecodeAux fuel rest2 with
          | none => none
          | some cs => some (Char.ofNat ((b - 0xC0) * 64 + (b2 - 0x80)) :: cs)
        else none
      | [] => none
    else if 0xE0 ≤ b ∧ b ≤ 0xEF then
      match rest with
      | b2 :: b3 :: rest3 =>
        let lo2 := if b = 0xE0 then 0xA0 else 0x80
        let hi2 := if b = 0xED then 0x9F else 0xBF
        if lo2 ≤ b2 ∧ b2 ≤ hi2 ∧ 0x80 ≤ b3 ∧ b3 ≤ 0xBF then
          match utf8DecodeAux fuel rest3 with
          | none => none
          | some cs =>
            some (Char.ofNat ((b - 0xE0) * 4096 + (b2 - 0x80) * 64 + (b3 - 0x80)) :: cs)
        else none
      | _ => none
    else if 0xF0 ≤ b ∧ b ≤ 0xF4 then
      match rest with
      | b2 :: b3 :: b4 :: rest4 =>
        let lo2 := if b = 0xF0 then 0x90 else 0x80
        let hi2 := if b = 0xF4 then 0x8F else 0xBF
        if lo2 ≤ b2 ∧ b2 ≤ hi2 ∧ 0x80 ≤ b3 ∧ b3 ≤ 0xBF ∧ 0x80 ≤ b4 ∧ b4 ≤ 0xBF then
          match utf8DecodeAux fuel rest4 with
          | none => none
          | some cs =>
            some (Char.ofNat ((b - 0xF0) * 262144 + (b2 - 0x80) * 4096 +
                              (b3 - 0x80) * 64 + (b4 - 0x80)) :: cs)
        else none
      | _ => none
    else none

/-- UTF-8 decode of a byte list, `none` on malformed input. -/
def utf8Decode (bs : List Nat) : Option (List Char) :=
  utf8DecodeAux bs.length bs

/-- JS `String.prototype.split` with a single-character separator: splits
into the (always non-empty) list of segments between occurrences of the
separator. -/
def splitOnChar (sep : Char) : List Char → List (List Char)
  | [] => [[]]
  | c :: rest =>
    let r := splitOnChar sep rest
    if c = sep then [] :: r
    else
      match r with
      | [] => [[c]]
      | h :: t => (c :: h) :: t

/-- The try-block body of `parseJWT`: split at `'.'` and take index 1 (JS
`split('.')[1]`, `undefined` — i.e. a throw on the following `.replace` —
when there is no second segment), translate the base64url alphabet to the
base64 one (each dash becomes a plus, each underscore becomes a slash, the
two global `.replace` calls), `atob`, percent-encode each
byte and `decodeURIComponent` (strict UTF-8 decode), then `JSON.parse`
projected to `{ exp?, iat? }`. `JSON.parse` is a JS builtin, not repository
code; it is abstracted as the parameter `jsonParse`, where `none` models a
thrown `SyntaxError`. A `none` result models any step of the try block
throwing. -/
def parseJWTPipeline (jsonParse : String → Option JWTClaims) (token : String) :
    Option JWTClaims :=
  match (splitOnChar '.' token.data).get? 1 with
  | none => none
  | some base64Url =>
    let base64 := String.mk (base64Url.map
      (fun c => if c = '-' then '+' else if c = '_' then '/' else c))
    match atob base64 with
    | none => none
    | some bytes =>
      match utf8Decode bytes with
      | none => none
      | some chars => jsonParse (String.mk chars)

/-- `parseJWT` from `token-refresh.ts`: the try block above with the
`catch { return {} }` fallback. Total by construction — every failure of the
pipeline yields the empty claim object. -/
def parseJWT (jsonParse : String → Option JWTClaims) (token : String) : JWTClaims :=
  (parseJWTPipeline jsonParse token).getD ⟨none, none⟩

/-- `REFRESH_BUFFER = 5 * 60 * 1000` (milliseconds). -/
def REFRESH_BUFFER : Int := 5 * 60 * 1000

/-- JS falsiness of the optional numeric claim `claims.exp`: `!claims.exp`
is true when the claim is absent and also when it equals `0`. -/
def expFalsy : Option Int → Bool
  | none => true
  | some e => e == 0

/-- `shouldRefreshToken` from `token-refresh.ts`. `Date.now()` (milliseconds)
is the explicit parameter `now`. -/
def shouldRefreshToken (jsonParse : String → Option JWTClaims) (accessToken : String)
    (now : Int) : Bool :=
  let claims := parseJWT jsonParse accessToken
  if expFalsy claims.exp then true
  else
    let expiryTime := (claims.exp.getD 0) * 1000
    let timeUntilExpiry := expiryTime - now
    timeUntilExpiry < REFRESH_BUFFER

/-- `getTokenExpiryTime` from `token-refresh.ts`: seconds until expiry,
`0` if expired or undecodable. `Math.floor` on a non-negative value is
integer division. -/
def getTokenExpiryTime (jsonParse : String → Option JWTClaims) (accessToken : String)
    (now : Int) : Int :=
  let claims := parseJWT jsonParse accessToken
  if expFalsy claims.exp then 0
  else
    let expiryTime := (claims.exp.getD 0) * 1000
    let timeUntilExpiry := max 0 (expiryTime - now)
    timeUntilExpiry / 1000

/-- `isTokenExpired` from `token-refresh.ts`. -/
def isTokenExpired (jsonParse : String → Option JWTClaims) (accessToken : String)
    (now : Int) : Bool :=
  let claims := parseJWT jsonParse accessToken
  if expFalsy claims.exp then true
  else now ≥ (claims.exp.getD 0) * 1000

/-! ### Server data model: `src/shared/types/django.ts` -/

/-- The fixed role enumeration of `UserProfile['role']`. -/
inductive Role
  | superadmin
  | clinica_admin
  | institucion_admin
  | profesional
  | agente_ia
  | readonly
deriving DecidableEq, Repr

/-- JS falsiness of an optional string (`null`/`undefined` or the empty
string are falsy). -/
def strFalsy : Option String → Bool
  | none => true
  | some s => s == ""

/-- The fields of `UserProfile` read by the authorization layer. -/
structure UserProfile where
  role : Role
  clinica_id : Option String
  institucion_id : Option String
  activo : Bool
deriving DecidableEq, Repr

/-- The fields of `UserDetail` read by the authorization layer. -/
structure UserDetail where
  first_name : String
  last_name : String
  profile : UserProfile
deriving DecidableEq, Repr

/-! ### Middleware chain: `src/server/middleware/auth.ts`

Each middleware either throws an `HTTPException` (modelled as `reject` with
the status and message) or calls `await next()` after setting context
variables (modelled as `proceed` with the variables it set). A `reject`
outcome means the downstream handler is never invoked. -/

/-- JWT payload fields read by `authMiddleware`; `none` models an absent
claim, and string claims can also be present-but-empty (falsy). -/
structure JWTPayload where
  sub : Option String
  role : Option String
  name : Option String
deriving DecidableEq, Repr

/-- Context variables set by `authMiddleware` / `optionalAuthMiddleware`. -/
structure AuthContext where
  userId : String
  userRole : String
  userName : Option String
deriving DecidableEq, Repr

/-- Outcome of the JWT middlewares: an `HTTPException`, or `await next()`
with the context attached (`proceed none` = proceed without auth context,
only possible for the optional variant). -/
inductive AuthResult
  | reject (status : Nat) (message : String)
  | proceed (ctx : Option AuthContext)
deriving DecidableEq, Repr

/-- JS `a || d` on an optional string: the default replaces an absent or
empty (falsy) value. -/
def jsOrDefault (v : Option String) (d : String) : String :=
  match v with
  | none => d
  | some s => if s = "" then d else s

/-- JS `String.prototype.startsWith`. -/
def jsStartsWith (s p : String) : Bool :=
  s.data.take p.data.length == p.data

/-- `authMiddleware` from `auth.ts`. `hono/jwt`'s `verify` is an external
primitive, abstracted as the parameter `verify` (`none` models a thrown
verification error). Note the inner `HTTPException(401, 'Invalid token
payload')` for a falsy `payload.sub` is thrown inside the try block, so the
catch replaces it with the generic 401 `'Invalid or expired token'`. -/
def authMiddleware (verify : String → Option JWTPayload)
    (authHeader : Option String) : AuthResult :=
  if strFalsy authHeader then .reject 401 "Missing Authorization header"
  else
    let h := authHeader.getD ""
    if !jsStartsWith h "Bearer " then
      .reject 401 "Invalid Authorization format. Expected \"Bearer <token>\""
    else
      let token := h.drop 7
      match verify token with
      | none => .reject 401 "Invalid or expired token"
      | some payload =>
        if strFalsy payload.sub then .reject 401 "Invalid or expired token"
        else
          .proceed (some
            { userId := payload.sub.getD ""
              userRole := jsOrDefault payload.role "agent"
              userName := if strFalsy payload.name then none else payload.name })

/-- `optionalAuthMiddleware` from `auth.ts`: same extraction and
verification, but absence or invalidity of the token proceeds without
context instead of rejecting. -/
def optionalAuthMiddleware (verify : String → Option JWTPayload)
    (authHeader : Option String) : AuthResult :=
  if !strFalsy authHeader ∧ jsStartsWith (authHeader.getD "") "Bearer " then
    let token := (authHeader.getD "").drop 7
    match verify token with
    | none => .proceed none
    | some payload =>
      if strFalsy payload.sub then .proceed none
      else
        .proceed (some
          { userId := payload.sub.getD ""
            userRole := jsOrDefault payload.role "agent"
            userName := if strFalsy payload.name then none else payload.name })
  else .proceed none

/-- Context variables set by `djangoClinicContextMiddleware` before
`await next()`. -/
structure ClinicContext where
  clinicaId : Option String
  userRole : Role
  userName : String
  currentUser : UserDetail
deriving DecidableEq, Repr

/-- Outcome of Stage B: an `HTTPException`, or `await next()` with the
enriched tenant context. -/
inductive StageBResult
  | reject (status : Nat) (message : String)
  | proceed (ctx : ClinicContext)
deriving DecidableEq, Repr

/-- `djangoClinicContextMiddleware` from `auth.ts` (Stage B).
`c.get('accessToken')` is the credential Stage A attached to the context
(`none` when Stage A did not run). `getCurrentUser` models the result of
`djangoAuth.getCurrentUser(accessToken)` — an `HTTPException` carrying a
status and message on failure (the service's `request` helper converts
network and parse failures into a 500 `HTTPException`, and the middleware's
catch rethrows `HTTPException`s and wraps anything else as a 500). -/
def djangoClinicContextMiddleware (accessToken : Option String)
    (getCurrentUser : Except (Nat × String) UserDetail) : StageBResult :=
  if strFalsy accessToken then
    .reject 401
      "Authentication required. Use djangoAuthMiddleware before djangoClinicContextMiddleware"
  else
    match getCurrentUser with
    | .error (status, message) => .reject status message
    | .ok user =>
      if !user.profile.activo then .reject 403 "User account is inactive"
      else if strFalsy user.profile.clinica_id ∧ user.profile.role ≠ .superadmin then
        .reject 403 "No clinic associated with this user"
      else
        .proceed
          { clinicaId := if strFalsy user.profile.clinica_id then none
                         else user.profile.clinica_id
            userRole := user.profile.role
            userName := user.first_name ++ " " ++ user.last_name
            currentUser := user }

/-! ### Credential store state: `src/client/stores/auth/store.ts`

The four mutable signals of `AuthState`. `batch`ed signal writes are
modelled as a single record update. -/

/-- The mutable signals of the client auth store. -/
structure AuthStateM where
  currentUser : Option UserDetail
  isLoading : Bool
  error : Option String
  lastRefreshTimestamp : Option Int
deriving DecidableEq, Repr

/-- An HTTP response as seen by `fetch`: `response.ok` is derived from the
status code (2xx). -/
structure HttpResponse where
  status : Nat
deriving DecidableEq, Repr

/-- `Response.ok`: status in the inclusive range 200–299. -/
def HttpResponse.ok (r : HttpResponse) : Bool :=
  200 ≤ r.status && r.status ≤ 299

/-! ### Session actions: `src/client/stores/auth/actions.ts`

Each action is a function of the current store state and the outcome of its
network call. `Except Unit HttpResponse` models `fetch`: `.error ()` is a
thrown network error, `.ok r` a received response. The returned
`Except String _` models the promise settling (rejection message / resolved
value). -/

/-- JS whitespace stripped by `String.prototype.trim` (the ASCII portion;
the tokens this code trims are ASCII). -/
def isJSWhitespace (c : Char) : Bool :=
  c == ' ' || c == '\t' || c == '\n' || c == '\r' || c == '\x0b' || c == '\x0c'

/-- JS `String.prototype.trim`. -/
def jsTrim (s : String) : String :=
  String.mk (((s.data.dropWhile isJSWhitespace).reverse.dropWhile isJSWhitespace).reverse)

/-- Result of a `login` invocation: the store state afterwards, the settled
promise, and whether the `fetch` network call was reached. -/
structure LoginResult where
  state : AuthStateM
  result : Except String UserDetail
  networkCalled : Bool
deriving Repr

/-- `login` from `actions.ts`. `net` models the combined outcome of the
`fetch` plus response parsing inside the try block: `.ok user` for a 2xx
response whose body passes `LoginResponseSchema`, `.error msg` for a thrown
network error, a non-OK response (`parseErrorResponse` message) or a
malformed body. `now` is `Date.now()`. Note the required-field check throws
before the `batch` that clears `error` and sets `isLoading`, so a locally
rejected call leaves the store untouched. -/
def login (st : AuthStateM) (username password : String)
    (net : Except String UserDetail) (now : Int) : LoginResult :=
  if jsTrim username = "" ∨ jsTrim password = "" then
    { state := st
      result := .error "Username and password are required"
      networkCalled := false }
  else
    let st1 : AuthStateM := { st with error := none, isLoading := true }
    match net with
    | .ok user =>
      { state := { st1 with currentUser := some user, lastRefreshTimestamp := some now,
                            isLoading := false, error := none }
        result := .ok user
        networkCalled := true }
    | .error msg =>
      { state := { st1 with error := some msg, isLoading := false }
        result := .error msg
        networkCalled := true }

/-- `logout` from `actions.ts`: sets `isLoading`, performs the upstream
call whose outcome is entirely ignored (a thrown network error is caught
and logged, a non-OK response is not even inspected), then the `finally`
block clears the whole session state. The return type carries no
`Except`: `logout` never rejects. -/
def logout (st : AuthStateM) (outcome : Except Unit HttpResponse) : AuthStateM :=
  let st1 : AuthStateM := { st with isLoading := true }
  let _ := outcome
  { st1 with currentUser := none, lastRefreshTimestamp := none,
             isLoading := false, error := none }

/-- `refreshToken` from `actions.ts`: on a thrown network error the catch
logs and rethrows; on a non-OK response the identity is cleared only for
status 401/403, and the promise rejects; on success only
`lastRefreshTimestamp` is updated. -/
def refreshToken (st : AuthStateM) (outcome : Except Unit HttpResponse)
    (now : Int) : AuthStateM × Except String Unit :=
  match outcome with
  | .error _ => (st, .error "Token refresh error")
  | .ok r =>
    if !r.ok then
      if r.status = 401 ∨ r.status = 403 then
        ({ st with currentUser := none, lastRefreshTimestamp := none,
                   error := some "Session expired. Please login again." },
         .error "Token refresh failed")
      else (st, .error "Token refresh failed")
    else ({ st with lastRefreshTimestamp := some now }, .ok ())

/-! ### Auto-refresh scheduler: `src/client/stores/auth/index.ts`

The `effect` in `createAuthStoreWithAutoRefresh` observes
`isAuthenticated` and arms/disarms the `setInterval` timer. Timers are
modelled by bookkeeping: `setInterval` allocates a fresh id and adds it to
the set of live timers, `clearInterval` removes it. The effect body is the
transition function on the observed boolean. -/

/-- Scheduler state: the `refreshIntervalId` variable of the closure, the
set of currently live (ticking) interval timers, a fresh-id counter, and
whether the effect subscription has been disposed. -/
structure SchedulerState where
  refreshIntervalId : Option Nat
  live : List Nat
  fresh : Nat
  effectDisposed : Bool
deriving DecidableEq, Repr

/-- The body of the auto-refresh `effect`, run with the new value of
`isAuthenticated`: when authenticated, clear any previous timer and start a
new one; when not, clear the timer if present. -/
def onAuthEffect (isAuth : Bool) (s : SchedulerState) : SchedulerState :=
  if isAuth then
    let s1 :=
      match s.refreshIntervalId with
      | some i => { s with live := s.live.erase i }
      | none => s
    { s1 with refreshIntervalId := some s1.fresh, live := s1.live ++ [s1.fresh],
              fresh := s1.fresh + 1 }
  else
    match s.refreshIntervalId with
    | some i => { s with live := s.live.erase i, refreshIntervalId := none }
    | none => s

/-- `destroy` from `createAuthStoreWithAutoRefresh`: clear the timer if
present and dispose the effect (Preact signal disposers are idempotent). -/
def SchedulerState.destroy (s : SchedulerState) : SchedulerState :=
  let s1 :=
    match s.refreshIntervalId with
    | some i => { s with live := s.live.erase i, refreshIntervalId := none }
    | none => s
  { s1 with effectDisposed := true }

/-- Scheduler state at store creation: no timer, effect subscribed. The
effect's initial run observes `isAuthenticated = false` and is a no-op. -/
def initialScheduler : SchedulerState :=
  { refreshIntervalId := none, live := [], fresh := 0, effectDisposed := false }

/-- Run the effect over a sequence of observed `isAuthenticated` values
(identity present/absent transitions), starting from store creation. -/
def runScheduler (events : List Bool) : SchedulerState :=
  events.foldl (fun s e => onAuthEffect e s) initialScheduler

/-- Invariant of the scheduler bookkeeping: the live timers are exactly the
one referenced by `refreshIntervalId` (when present). -/
def SchedulerInv (s : SchedulerState) : Prop :=
  s.live = s.refreshIntervalId.toList

/-! ### Permission model: `src/client/stores/auth/types.ts`

`ROLE_PERMISSIONS` is a TS `Record` literal; it is modelled as the
association list of its entries so that completeness (every role has an
entry) is a provable property of the literal rather than of the type. -/

/-- The entries of the `ROLE_PERMISSIONS` record literal, in source order,
with the capability strings of each `Set` literal. -/
def rolePermissionsTable : List (Role × List String) :=
  [ (.superadmin,
     [ "clinicas:read", "clinicas:write", "clinicas:delete",
       "instituciones:read", "instituciones:write", "instituciones:delete",
       "alumnos:read", "alumnos:write", "alumnos:delete",
       "apoderados:read", "apoderados:write", "apoderados:delete",
       "encuestas:read", "encuestas:write", "encuestas:delete",
       "evaluaciones:read", "evaluaciones:write", "evaluaciones:delete",
       "llamadas:read", "llamadas:write", "llamadas:delete",
       "informes:read", "informes:write", "informes:delete",
       "usuarios:read", "usuarios:write", "usuarios:delete",
       "configuracion:read", "configuracion:write",
       "sensitive_data:view", "sensitive_data:export" ]),
    (.clinica_admin,
     [ "clinicas:read",
       "instituciones:read", "instituciones:write", "instituciones:delete",
       "alumnos:read", "alumnos:write", "alumnos:delete",
       "apoderados:read", "apoderados:write", "apoderados:delete",
       "encuestas:read", "encuestas:write", "encuestas:delete",
       "evaluaciones:read", "evaluaciones:write", "evaluaciones:delete",
       "llamadas:read", "llamadas:write", "llamadas:delete",
       "informes:read", "informes:write", "informes:delete",
       "usuarios:read", "usuarios:write",
       "configuracion:read", "configuracion:write",
       "sensitive_data:view" ]),
    (.institucion_admin,
     [ "instituciones:read",
       "alumnos:read", "alumnos:write", "alumnos:delete",
       "apoderados:read", "apoderados:write", "apoderados:delete",
       "encuestas:read", "encuestas:write",
       "evaluaciones:read", "evaluaciones:write",
       "llamadas:read",
       "informes:read", "informes:write",
       "usuarios:read" ]),
    (.profesional,
     [ "alumnos:read",
       "apoderados:read",
       "encuestas:read", "encuestas:write",
       "evaluaciones:read", "evaluaciones:write",
       "llamadas:read",
       "informes:read", "informes:write" ]),
    (.agente_ia,
     [ "alumnos:read",
       "apoderados:read",
       "encuestas:read",
       "llamadas:read", "llamadas:write" ]),
    (.readonly,
     [ "alumnos:read",
       "encuestas:read",
       "evaluaciones:read",
       "informes:read" ]) ]

/-- `ROLE_PERMISSIONS[role]`: lookup of a role's entry in the record; a
`none` result would be JS `undefined` (an unmapped role). -/
def lookupRolePermissions (r : Role) : Option (List String) :=
  (rolePermissionsTable.find? (fun p => p.1 == r)).map (fun p => p.2)

/-- `getRolePermissions` from `types.ts`: the empty set for a `null` role,
otherwise the record lookup (`none` modelling an undefined lookup result,
which no role produces — see `role_table_total`). -/
def getRolePermissions : Option Role → Option (List String)
  | none => some []
  | some r => lookupRolePermissions r

/-- `hasPermission` from `types.ts`: `false` for a `null` role, otherwise
`ROLE_PERMISSIONS[role].has(permission)` (`none` models the `TypeError`
that an unmapped role would raise on `.has`). -/
def hasPermission (role : Option Role) (permission : String) : Option Bool :=
  match role with
  | none => some false
  | some r => (lookupRolePermissions r).map (fun ps => ps.contains permission)

/-! ### Concrete fixtures used by witnesses and counterexamples -/

/-- A `JSON.parse` instance returning a fixed claim set, for concrete
evaluation of the codec past the decode pipeline. -/
def jpFixed : String → Option JWTClaims := fun _ => some ⟨some 3600, none⟩

/-- An inactive professional with a tenant assignment. -/
def inactiveUser : UserDetail :=
  { first_name := "Ana", last_name := "Diaz"
    profile := { role := .profesional, clinica_id := some "c1",
                 institucion_id := none, activo := false } }

/-- An active institution admin with no tenant assignment. -/
def noClinicAdmin : UserDetail :=
  { first_name := "Luis", last_name := "Rojas"
    profile := { role := .institucion_admin, clinica_id := none,
                 institucion_id := none, activo := true } }

/-- An active superadmin with no tenant assignment. -/
def freeSuperadmin : UserDetail :=
  { first_name := "Eva", last_name := "Soto"
    profile := { role := .superadmin, clinica_id := none,
                 institucion_id := none, activo := true } }

/-- The store state at client start: unauthenticated, idle, no error. -/
def stInit : AuthStateM :=
  { currentUser := none, isLoading := false, error := none,
    lastRefreshTimestamp := none }

/-- An authenticated store state. -/
def stAuthed : AuthStateM :=
  { currentUser := some freeSuperadmin, isLoading := false, error := none,
    lastRefreshTimestamp := some 5 }

/-! ### C1, C6 — Stage B (`djangoClinicContextMiddleware`) -/

/-- C1: at Stage B, given a credential attached by Stage A and a fetched
identity record, an inactive account is rejected 403; an account with no
tenant assignment whose role is not `superadmin` is rejected 403; an active
`superadmin` with no tenant assignment proceeds (with a cleared
`clinicaId`). -/
theorem stageB_tenant_gate (tok : String) (u : UserDetail) (htok : tok ≠ "") :
    (u.profile.activo = false →
        djangoClinicContextMiddleware (some tok) (.ok u) =
          .reject 403 "User account is inactive") ∧
    (u.profile.activo = true → strFalsy u.profile.clinica_id = true →
        u.profile.role ≠ .superadmin →
        djangoClinicContextMiddleware (some tok) (.ok u) =
          .reject 403 "No clinic associated with this user") ∧
    (u.profile.activo = true → strFalsy u.profile.clinica_id = true →
        u.profile.role = .superadmin →
        djangoClinicContextMiddleware (some tok) (.ok u) =
          .proceed ⟨none, .superadmin, u.first_name ++ " " ++ u.last_name, u⟩) := by
  have hne : strFalsy (some tok) = false := by simp [strFalsy, htok]
  refine ⟨fun ha => ?_, fun ha hcl hr => ?_, fun ha hcl hr => ?_⟩
  · simp [djangoClinicContextMiddleware, hne, ha]
  · simp [djangoClinicContextMiddleware, hne, ha, hcl, hr]
  · simp [djangoClinicContextMiddleware, hne, ha, hcl, hr]

/-- Witness for `stageB_tenant_gate` at the three concrete fixtures. -/
theorem stageB_tenant_gate_witness :
    djangoClinicContextMiddleware (some "tok") (.ok inactiveUser) =
      .reject 403 "User account is inactive" ∧
    djangoClinicContextMiddleware (some "tok") (.ok noClinicAdmin) =
      .reject 403 "No clinic associated with this user" ∧
    djangoClinicContextMiddleware (some "tok") (.ok freeSuperadmin) =
      .proceed ⟨none, .superadmin,
        freeSuperadmin.first_name ++ " " ++ freeSuperadmin.last_name, freeSuperadmin⟩ :=
  ⟨(stageB_tenant_gate "tok" inactiveUser (by decide)).1 rfl,
   (stageB_tenant_gate "tok" noClinicAdmin (by decide)).2.1 rfl rfl (by decide),
   (stageB_tenant_gate "tok" freeSuperadmin (by decide)).2.2 rfl rfl rfl⟩

/-- C6: when Stage A has not attached an access credential to the context,
Stage B rejects with a 401 authentication error for every possible issuer
response — so the downstream handler (`next`) is never invoked, and a chain
without Stage A rejects every request. -/
theorem stageB_rejects_without_stageA (fetch : Except (Nat × String) UserDetail) :
    djangoClinicContextMiddleware none fetch =
      .reject 401
        "Authentication required. Use djangoAuthMiddleware before djangoClinicContextMiddleware" :=
  rfl

/-! ### C7 — `parseJWT` totality -/

/-- C7: `parseJWT` is a total function (its Lean return type is the bare
claim object — every failure of the decode pipeline is caught); whenever
the pipeline fails (no second dot-segment, invalid base64, malformed UTF-8,
unparsable JSON), it returns the empty claim object, and consequently
`isTokenExpired` is true and `getTokenExpiryTime` is 0 at every evaluation
time. -/
theorem parseJWT_total_empty_on_garbage (jsonParse : String → Option JWTClaims)
    (s : String) (t : Int) (h : parseJWTPipeline jsonParse s = none) :
    parseJWT jsonParse s = ⟨none, none⟩ ∧
    isTokenExpired jsonParse s t = true ∧
    getTokenExpiryTime jsonParse s t = 0 := by
  refine ⟨?_, ?_, ?_⟩ <;>
    simp [parseJWT, isTokenExpired, getTokenExpiryTime, h, expFalsy]

/-- Witness for `parseJWT_total_empty_on_garbage` on a dotless garbage
string. -/
theorem parseJWT_total_empty_on_garbage_witness :
    parseJWT (fun _ => none) "not-a-jwt" = ⟨none, none⟩ ∧
    isTokenExpired (fun _ => none) "not-a-jwt" 0 = true ∧
    getTokenExpiryTime (fun _ => none) "not-a-jwt" 0 = 0 :=
  parseJWT_total_empty_on_garbage (fun _ => none) "not-a-jwt" 0 rfl

/-! ### C4 — `logout` always clears -/

/-- C4: whatever the upstream logout call does (success with any status,
or a thrown network error), `logout` leaves the store with the identity
absent, loading cleared and error cleared; its return type carries no
failure case, so it never throws to its caller. -/
theorem logout_always_clears (st : AuthStateM) (outcome : Except Unit HttpResponse) :
    (logout st outcome).currentUser = none ∧
    (logout st outcome).isLoading = false ∧
    (logout st outcome).error = none ∧
    (logout st outcome).lastRefreshTimestamp = none :=
  ⟨rfl, rfl, rfl, rfl⟩

/-! ### C8 — role table completeness -/

/-- C8: every role of the fixed enumeration has an entry in the
`ROLE_PERMISSIONS` record, so `getRolePermissions` returns a defined
(possibly empty) capability set for every role and `hasPermission` is
defined for every role and capability. -/
theorem role_table_total (r : Role) :
    (lookupRolePermissions r).isSome = true ∧
    (getRolePermissions (some r)).isSome = true ∧
    ∀ p : String, (hasPermission (some r) p).isSome = true := by
  cases r <;> exact ⟨rfl, rfl, fun _ => rfl⟩

/-! ### C2 — `shouldRefreshToken` window boundary -/

/-- C2 counterexample: the claim asserts `shouldRenew` is true on the whole
closed interval `[T - buffer, T]`, but at the exact boundary evaluation
time `T - buffer` (here `T = 3600` s, i.e. 3600000 ms, buffer 300000 ms,
so `now = 3300000`) the strict comparison `timeUntilExpiry < REFRESH_BUFFER`
makes `shouldRefreshToken` return `false`. -/
theorem shouldRefresh_boundary_counterexample :
    (parseJWT jpFixed "a.AAAA.c").exp = some 3600 ∧
    shouldRefreshToken jpFixed "a.AAAA.c" (3600 * 1000 - 300000) = false :=
  ⟨rfl, rfl⟩

/-- C2 (amended): for every token with a decodable nonzero expiry `T`
(seconds; `exp = 0` is falsy in JS and treated as undecodable), the refresh
window is open on the left — `shouldRefreshToken` at evaluation time `t`
(milliseconds) is true exactly when `1000 * T - 300000 < t`, so it is true
on `(T - buffer, T]` and false for every `t ≤ T - buffer`, including the
boundary itself. -/
theorem shouldRefresh_window (jsonParse : String → Option JWTClaims)
    (tok : String) (e t : Int)
    (he : (parseJWT jsonParse tok).exp = some e) (h0 : e ≠ 0) :
    shouldRefreshToken jsonParse tok t = true ↔ 1000 * e - 300000 < t := by
  have hf : expFalsy (parseJWT jsonParse tok).exp = false := by
    simp [he, expFalsy, h0]
  have hb : shouldRefreshToken jsonParse tok t =
      decide ((parseJWT jsonParse tok).exp.getD 0 * 1000 - t < REFRESH_BUFFER) := by
    simp [shouldRefreshToken, hf]
  rw [hb, he]
  simp only [Option.getD_some, decide_eq_true_eq, REFRESH_BUFFER]
  constructor <;> intro hlt <;> omega

/-- Witness for `shouldRefresh_window`: one millisecond inside the open
window the token is refreshed. -/
theorem shouldRefresh_window_witness :
    shouldRefreshToken jpFixed "a.AAAA.c" 3300001 = true :=
  (shouldRefresh_window jpFixed "a.AAAA.c" 3600 3300001 rfl (by decide)).mpr
    (by decide)

/-! ### C3 — `refreshToken` failure semantics -/

/-- C3: `refreshToken` rejects on every failure; it clears the stored
identity exactly when the issuer answers 401 or 403; a network error leaves
the whole store untouched, and a non-auth HTTP error leaves the store
untouched as well; success only updates the renewal timestamp. -/
theorem refreshToken_failure_semantics (st : AuthStateM)
    (outcome : Except Unit HttpResponse) (now : Int) :
    (∀ r, outcome = .ok r → r.ok = true →
        refreshToken st outcome now =
          ({ st with lastRefreshTimestamp := some now }, .ok ())) ∧
    (outcome = .error () →
        refreshToken st outcome now = (st, .error "Token refresh error")) ∧
    (∀ r, outcome = .ok r → (r.status = 401 ∨ r.status = 403) →
        (refreshToken st outcome now).1.currentUser = none ∧
        (refreshToken st outcome now).2 = .error "Token refresh failed") ∧
    (∀ r, outcome = .ok r → r.ok = false → r.status ≠ 401 → r.status ≠ 403 →
        refreshToken st outcome now = (st, .error "Token refresh failed")) := by
  refine ⟨fun r hr hok => ?_, fun hn => ?_, fun r hr hst => ?_,
          fun r hr hok h1 h3 => ?_⟩
  · subst hr; simp [refreshToken, hok]
  · subst hn; rfl
  · subst hr
    have hok : r.ok = false := by
      rcases hst with h | h <;> simp [HttpResponse.ok, h]
    rcases hst with h | h <;> simp [refreshToken, hok, h]
  · subst hr; simp [refreshToken, hok, h1, h3]

/-- Witness for `refreshToken_failure_semantics` at a concrete authenticated
state against a 200, a network error, a 401 and a 500 response. -/
theorem refreshToken_failure_semantics_witness :
    refreshToken stAuthed (.ok ⟨200⟩) 9 =
      ({ stAuthed with lastRefreshTimestamp := some 9 }, .ok ()) ∧
    refreshToken stAuthed (.error ()) 9 = (stAuthed, .error "Token refresh error") ∧
    (refreshToken stAuthed (.ok ⟨401⟩) 9).1.currentUser = none ∧
    (refreshToken stAuthed (.ok ⟨401⟩) 9).2 = .error "Token refresh failed" ∧
    refreshToken stAuthed (.ok ⟨500⟩) 9 = (stAuthed, .error "Token refresh failed") :=
  ⟨(refreshToken_failure_semantics stAuthed (.ok ⟨200⟩) 9).1 ⟨200⟩ rfl (by decide),
   (refreshToken_failure_semantics stAuthed (.error ()) 9).2.1 rfl,
   ((refreshToken_failure_semantics stAuthed (.ok ⟨401⟩) 9).2.2.1 ⟨401⟩ rfl
      (Or.inl rfl)).1,
   ((refreshToken_failure_semantics stAuthed (.ok ⟨401⟩) 9).2.2.1 ⟨401⟩ rfl
      (Or.inl rfl)).2,
   (refreshToken_failure_semantics stAuthed (.ok ⟨500⟩) 9).2.2.2 ⟨500⟩ rfl
      (by decide) (by decide) (by decide)⟩

/-! ### C5 — `login` local validation -/

/-- C5 counterexample: logging in with an empty password from the initial
store state is rejected locally with no network call, but the store —
including its `error` field, which the claim says receives a
required-field message — is left completely unchanged (`error` stays
`none`), because the required-field check throws before the `batch` that
writes the signals. -/
theorem login_empty_counterexample :
    (login stInit "alice" "" (.ok freeSuperadmin) 0).state = stInit ∧
    (login stInit "alice" "" (.ok freeSuperadmin) 0).state.error = none ∧
    (login stInit "alice" "" (.ok freeSuperadmin) 0).networkCalled = false :=
  ⟨rfl, rfl, rfl⟩

/-- C5 (amended): for every login where username or password is empty after
trimming, the call is rejected locally before any network request with the
required-field message as the rejection reason of the returned promise, and
the store state (its `error` field included) is left unchanged. -/
theorem login_empty_rejected_locally (st : AuthStateM) (u p : String)
    (net : Except String UserDetail) (now : Int)
    (h : jsTrim u = "" ∨ jsTrim p = "") :
    login st u p net now =
      { state := st, result := .error "Username and password are required",
        networkCalled := false } := by
  simp [login, h]

/-- Witness for `login_empty_rejected_locally` with a whitespace-only
password. -/
theorem login_empty_rejected_locally_witness :
    login stInit "alice" " " (.ok freeSuperadmin) 3 =
      { state := stInit, result := .error "Username and password are required",
        networkCalled := false } :=
  login_empty_rejected_locally stInit "alice" " " (.ok freeSuperadmin) 3
    (Or.inr rfl)

/-! ### C10 — missing `role` claim defaults to agent -/

/-- C10 counterexample: a token that passes JWT verification with a payload
containing neither a `role` nor a `sub` claim is rejected with 401 by
`authMiddleware` (the inner invalid-payload throw is converted by the catch
into the generic message), not accepted with agent-level context as the
claim states. -/
theorem auth_missing_sub_counterexample :
    authMiddleware (fun _ => some ⟨none, none, none⟩) (some "Bearer x") =
      .reject 401 "Invalid or expired token" :=
  rfl

/-- C10 (amended): for every request whose bearer token passes JWT
verification with a payload that has a truthy `sub` claim but no `role`
claim, both `authMiddleware` and `optionalAuthMiddleware` attach
`userRole = "agent"` to the context and proceed. -/
theorem auth_role_defaults_to_agent (verify : String → Option JWTPayload)
    (h : String) (p : JWTPayload) (s : String)
    (hsw : jsStartsWith h "Bearer " = true)
    (hv : verify (h.drop 7) = some p)
    (hsub : p.sub = some s) (hs : s ≠ "") (hrole : p.role = none) :
    authMiddleware verify (some h) =
      .proceed (some ⟨s, "agent", if strFalsy p.name then none else p.name⟩) ∧
    optionalAuthMiddleware verify (some h) =
      .proceed (some ⟨s, "agent", if strFalsy p.name then none else p.name⟩) := by
  have hne : strFalsy (some h) = false := by
    by_cases hh : h = ""
    · subst hh; exact absurd hsw (by decide)
    · simp [strFalsy, hh]
  have hsf : strFalsy (some s) = false := by simp [strFalsy, hs]
  constructor
  · simp [authMiddleware, hne, hsw, hv, hsub, hsf, hrole, jsOrDefault]
  · simp [optionalAuthMiddleware, hne, hsw, hv, hsub, hsf, hrole, jsOrDefault]

/-- Witness for `auth_role_defaults_to_agent` with a concrete verifier
returning a sub-only payload. -/
theorem auth_role_defaults_to_agent_witness :
    authMiddleware (fun _ => some ⟨some "u1", none, none⟩) (some "Bearer x") =
      .proceed (some ⟨"u1", "agent", none⟩) ∧
    optionalAuthMiddleware (fun _ => some ⟨some "u1", none, none⟩) (some "Bearer x") =
      .proceed (some ⟨"u1", "agent", none⟩) :=
  auth_role_defaults_to_agent (fun _ => some ⟨some "u1", none, none⟩)
    "Bearer x" ⟨some "u1", none, none⟩ "u1" (by decide) rfl rfl (by decide) rfl

/-! ### C9 — scheduler arm/disarm -/

theorem schedulerInv_initial : SchedulerInv initialScheduler := rfl

theorem schedulerInv_onAuthEffect (e : Bool) (s : SchedulerState)
    (h : SchedulerInv s) : SchedulerInv (onAuthEffect e s) := by
  unfold SchedulerInv at h ⊢
  cases e <;> cases hi : s.refreshIntervalId <;>
    simp [onAuthEffect, hi, h, hi ▸ h]

theorem schedulerInv_foldl (evs : List Bool) :
    ∀ s : SchedulerState, SchedulerInv s →
      SchedulerInv (evs.foldl (fun t e => onAuthEffect e t) s) := by
  induction evs with
  | nil => exact fun s h => h
  | cons e rest ih =>
    intro s h
    exact ih (onAuthEffect e s) (schedulerInv_onAuthEffect e s h)

theorem armed_onAuthEffect (e : Bool) (s : SchedulerState) :
    (onAuthEffect e s).refreshIntervalId.isSome = e := by
  cases e <;> cases hi : s.refreshIntervalId <;> simp [onAuthEffect, hi]

theorem armed_foldl (evs : List Bool) :
    ∀ s : SchedulerState,
      (evs.foldl (fun t e => onAuthEffect e t) s).refreshIntervalId.isSome =
        (match evs.getLast? with
         | none => s.refreshIntervalId.isSome
         | some e => e) := by
  induction evs with
  | nil => intro s; rfl
  | cons e rest ih =>
    intro s
    rw [List.foldl_cons, ih (onAuthEffect e s)]
    cases rest with
    | nil => simp [armed_onAuthEffect]
    | cons e2 r2 => rfl

theorem scheduler_destroy_destroy (s : SchedulerState) :
    s.destroy.destroy = s.destroy := by
  cases hi : s.refreshIntervalId <;> simp [SchedulerState.destroy, hi]

/-- C9: over any sequence of observed identity present/absent transitions,
the scheduler holds a timer iff the most recent transition set identity
present; at every point of the sequence at most one interval timer is
live (re-arming clears the previous timer first); and `destroy` clears the
timer reference, leaves no live timer, and is idempotent. -/
theorem scheduler_armed_iff_identity (evs : List Bool) :
    ((runScheduler evs).refreshIntervalId.isSome = true ↔
        evs.getLast? = some true) ∧
    (∀ n, (runScheduler (evs.take n)).live.length ≤ 1) ∧
    (runScheduler evs).destroy.refreshIntervalId = none ∧
    (runScheduler evs).destroy.live = [] ∧
    (runScheduler evs).destroy.destroy = (runScheduler evs).destroy := by
  have hinv : ∀ l : List Bool, SchedulerInv (runScheduler l) :=
    fun l => schedulerInv_foldl l initialScheduler schedulerInv_initial
  refine ⟨?_, ?_, ?_, ?_, scheduler_destroy_destroy _⟩
  · rw [runScheduler, armed_foldl evs initialScheduler]
    cases hl : evs.getLast? with
    | none => simp [initialScheduler]
    | some e => cases e <;> simp
  · intro n
    have h := hinv (evs.take n)
    rw [SchedulerInv] at h
    rw [h]
    cases (runScheduler (evs.take n)).refreshIntervalId <;> simp
  · cases hi : (runScheduler evs).refreshIntervalId <;>
      simp [SchedulerState.destroy, hi]
  · have h := hinv evs
    rw [SchedulerInv] at h
    cases hi : (runScheduler evs).refreshIntervalId <;>
      simp [SchedulerState.destroy, hi, hi ▸ h]
